import Mathlib

/-!
Shallow embedding of the runtime SHA-256 backend selection of
`src/crypto/hash/custom_hasher/hasher.cpp` (namespace `prysm`), together
with the parts of its environment the file depends on:

* the CPUID feature bits from `<cpuid.h>` (`bit_SHA`, `bit_AVX2`,
  `bit_AVX`, `bit_SSE3`) and the semantics of `__get_cpuid_count` /
  `__get_cpuid`, which return 0 and leave their output registers
  UNWRITTEN when the requested leaf (or the CPUID instruction itself)
  is unsupported — `hasher.cpp` ignores those return values and its
  locals `a, b, c, d` are declared without initializers, so in that
  case the flag tests read indeterminate values;
* the capability-set type `Hasher::IMPL`, its bitwise operators, the
  class interface of `Hasher`, and `constants::BYTES_PER_CHUNK`, all
  declared in `hasher.hpp`, which is not among the available source
  files; these are modelled from the spec and marked as such.

The external assembly kernels (`sha256_shani`, `sha256_8_avx2`,
`sha256_4_avx`, `sha256_1_avx`) are opaque collaborators: the
single-block kernel is modelled as an arbitrary function from its
64 input bytes to its 32 output bytes, exactly the read/write
footprint the spec assigns to it.
-/

namespace prysm

/-- Byte-addressed memory; buffers are regions of it named by a base address. -/
abbrev Mem := Nat → UInt8

/-- Modelled from the spec: the type `Hasher::IMPL` is declared in `hasher.hpp`,
which is not among the available source files.  The spec describes it as an
immutable bitmask over the mutually non-exclusive flags
`{NONE, SSE, AVX, AVX2, SHA}` with `NONE` the identity of bitwise or/and.
We model one Boolean per flag, which is a bitmask whose four flags occupy
distinct bits. -/
structure IMPL where
  sha : Bool
  avx2 : Bool
  avx : Bool
  sse : Bool
deriving DecidableEq, Fintype

/-- The empty capability set `IMPL::NONE`. -/
def IMPL.NONE : IMPL := ⟨false, false, false, false⟩

/-- The single-flag set `IMPL::SHA`. -/
def IMPL.SHA : IMPL := ⟨true, false, false, false⟩

/-- The single-flag set `IMPL::AVX2`. -/
def IMPL.AVX2 : IMPL := ⟨false, true, false, false⟩

/-- The single-flag set `IMPL::AVX`. -/
def IMPL.AVX : IMPL := ⟨false, false, true, false⟩

/-- The single-flag set `IMPL::SSE`. -/
def IMPL.SSE : IMPL := ⟨false, false, false, true⟩

/-- Modelled from the spec: bitwise `operator|` on `Hasher::IMPL`
(declared in `hasher.hpp`, not among the available source files). -/
def IMPL.or (x y : IMPL) : IMPL :=
  ⟨x.sha || y.sha, x.avx2 || y.avx2, x.avx || y.avx, x.sse || y.sse⟩

/-- Modelled from the spec: bitwise `operator&` on `Hasher::IMPL`
(declared in `hasher.hpp`, not among the available source files). -/
def IMPL.and (x y : IMPL) : IMPL :=
  ⟨x.sha && y.sha, x.avx2 && y.avx2, x.avx && y.avx, x.sse && y.sse⟩

/-- The flag-membership check `!!(x & f)` used by
`Hasher::best_sha256_implementation`: the conjunction is nonzero. -/
def IMPL.test (x f : IMPL) : Bool := decide (IMPL.and x f ≠ IMPL.NONE)

/-- CPUID leaf 7 EBX bit for the SHA extensions (`<cpuid.h>`: bit 29). -/
def bit_SHA : Nat := 2 ^ 29

/-- CPUID leaf 7 EBX bit for AVX2 (`<cpuid.h>`: bit 5). -/
def bit_AVX2 : Nat := 2 ^ 5

/-- CPUID leaf 1 ECX bit for AVX (`<cpuid.h>`: bit 28). -/
def bit_AVX : Nat := 2 ^ 28

/-- CPUID leaf 1 ECX bit for SSE3 (`<cpuid.h>`: bit 0). -/
def bit_SSE3 : Nat := 2 ^ 0

/-- The hardware context `Hasher::implemented` reads.  `maxLeaf` is the
highest CPUID leaf the machine supports (`0` when the query mechanism
itself is unavailable); `leaf7_ebx` and `leaf1_ecx` are the feature
registers those leaves report.  `junk_b` and `junk_c` are the
indeterminate initial contents of the uninitialized locals `b` and `c`
of `Hasher::implemented`, which are read unchanged when the
corresponding `__get_cpuid_count` / `__get_cpuid` call is unsupported
and therefore writes nothing. -/
structure Machine where
  maxLeaf : Nat
  leaf7_ebx : Nat
  leaf1_ecx : Nat
  junk_b : Nat
  junk_c : Nat

/-- `Hasher::implemented` (hasher.cpp lines 21–33): queries CPUID leaf 7
subleaf 0 and CPUID leaf 1, and ors a capability flag into the result for
each feature bit found set.  The return values of `__get_cpuid_count` and
`__get_cpuid` are ignored in the source, so when a leaf is unsupported the
flag tests read the indeterminate locals (`junk_b` / `junk_c`). -/
def Hasher.implemented (m : Machine) : IMPL :=
  let ret := IMPL.NONE
  let b := if 7 ≤ m.maxLeaf then m.leaf7_ebx else m.junk_b
  let ret := if b &&& bit_SHA ≠ 0 then ret.or IMPL.SHA else ret
  let ret := if b &&& bit_AVX2 ≠ 0 then ret.or IMPL.AVX2 else ret
  let c := if 1 ≤ m.maxLeaf then m.leaf1_ecx else m.junk_c
  let ret := if c &&& bit_AVX ≠ 0 then ret.or IMPL.AVX else ret
  let ret := if c &&& bit_SSE3 ≠ 0 then ret.or IMPL.SSE else ret
  ret

/-- The four callable kernels `hasher.cpp` can bind:
the three external batch kernels declared in `hasher.h` and the
fallback loop `Hasher::sha256_sse` defined in `hasher.cpp`. -/
inductive Backend where
  | sha256_shani
  | sha256_8_avx2
  | sha256_4_avx
  | sha256_sse
deriving DecidableEq, Fintype

/-- The capability flag each backend's selection test requires:
`best_sha256_implementation` returns `sha256_shani` on `IMPL::SHA`,
`sha256_8_avx2` on `IMPL::AVX2`, `sha256_4_avx` on `IMPL::AVX`, and the
fallback `sha256_sse` with no test at all (no required flag). -/
def required : Backend → IMPL
  | .sha256_shani => IMPL.SHA
  | .sha256_8_avx2 => IMPL.AVX2
  | .sha256_4_avx => IMPL.AVX
  | .sha256_sse => IMPL.NONE

/-- Priority rank of a backend: the earlier `best_sha256_implementation`
tests for it, the higher the rank. -/
def rank : Backend → Nat
  | .sha256_shani => 3
  | .sha256_8_avx2 => 2
  | .sha256_4_avx => 1
  | .sha256_sse => 0

/-- A backend requirement is satisfied by a capability set when it is no
requirement at all (the fallback) or its flag is present. -/
def satisfies (caps req : IMPL) : Bool :=
  decide (req = IMPL.NONE) || IMPL.test caps req

/-- The selection chain of `Hasher::best_sha256_implementation`
(hasher.cpp lines 37–40), factored over the capability set it computes:
first flag test that passes wins, `sha256_sse` if none does. -/
def select (impl : IMPL) : Backend :=
  if IMPL.test impl IMPL.SHA then .sha256_shani
  else if IMPL.test impl IMPL.AVX2 then .sha256_8_avx2
  else if IMPL.test impl IMPL.AVX then .sha256_4_avx
  else .sha256_sse

/-- `Hasher::best_sha256_implementation` (hasher.cpp lines 35–41):
probe the hardware, then run the selection chain. -/
def Hasher.best_sha256_implementation (m : Machine) : Backend :=
  select (Hasher.implemented m)

/-- The catalog of tested backends in the priority order
`best_sha256_implementation` checks them (the fallback is not tested,
it is the default). -/
def catalog : List Backend := [.sha256_shani, .sha256_8_avx2, .sha256_4_avx]

/-- Follows the spec's words (for comparison with `select`): walk the
catalog in priority order and return the first backend whose required
flag is present in `caps`; if none match, return the designated
fallback. -/
def selectPolicySpec (caps : IMPL) : Backend :=
  (catalog.find? (fun b => IMPL.test caps (required b))).getD .sha256_sse

/-- Modelled from the spec: `constants::BYTES_PER_CHUNK` comes from a
constants header that is not among the available source files; per the
spec the primitive combines two 32-byte values into one 32-byte digest,
so a chunk is 32 bytes. -/
def BYTES_PER_CHUNK : Nat := 32

/-- The shape of the external single-block kernel `sha256_1_avx`
(declared `extern "C"` in hasher.cpp line 5, defined outside the
available source files): per the spec contract it reads exactly the 64
input bytes of its block and produces exactly the 32 bytes of its
digest, so it is modelled as an arbitrary function of that footprint. -/
abbrev PairKernel := (Fin 64 → UInt8) → Fin 32 → UInt8

/-- The 64-byte block of `mem` based at address `p`. -/
def readBlock (mem : Mem) (p : Nat) : Fin 64 → UInt8 :=
  fun i => mem (p + i.val)

/-- Write a 32-byte digest at address `p` of `mem`; bytes outside
`[p, p + 32)` are untouched. -/
def writeDigest (mem : Mem) (p : Nat) (v : Fin 32 → UInt8) : Mem :=
  fun a => if h : p ≤ a ∧ a < p + 32 then v ⟨a - p, by omega⟩ else mem a

/-- `Hasher::sha256_sse` (hasher.cpp lines 12–19): loop `blocks` times,
each iteration calling the single-block kernel on the current input and
output positions, then advancing the input pointer by
`2 * BYTES_PER_CHUNK`, the output pointer by `BYTES_PER_CHUNK`, and
decrementing `blocks`.  `inMem` is the memory the input region lives
in and `outMem` the memory the output region lives in (per the spec
the caller guarantees the two regions are disjoint and the call writes
only the output region). -/
def Hasher.sha256_sse (k : PairKernel) (output input blocks : Nat)
    (inMem outMem : Mem) : Mem :=
  match blocks with
  | 0 => outMem
  | b + 1 =>
      Hasher.sha256_sse k (output + BYTES_PER_CHUNK)
        (input + 2 * BYTES_PER_CHUNK) b inMem
        (writeDigest outMem output (k (readBlock inMem input)))

/-- Modelled from the spec: the class `Hasher` is declared in
`hasher.hpp`, which is not among the available source files.  Per the
spec the Dispatcher holds exactly one bound kernel reference, fixed at
construction (the member `_hash_64b_blocks` assigned by the
constructor), and exposes only the pair-hashing operation afterwards. -/
structure Hasher where
  hash_64b_blocks : Backend

/-- The constructor `Hasher::Hasher(IMPL)` (hasher.cpp lines 43–60):
a `switch` on the exact value of `impl` binds the kernel named by one
of the four single-flag cases; every other value falls into `default`,
which binds the result of hardware-probed auto-selection. -/
def Hasher.construct (impl : IMPL) (m : Machine) : Hasher :=
  if impl = IMPL.SHA then ⟨.sha256_shani⟩
  else if impl = IMPL.AVX2 then ⟨.sha256_8_avx2⟩
  else if impl = IMPL.AVX then ⟨.sha256_4_avx⟩
  else if impl = IMPL.SSE then ⟨.sha256_sse⟩
  else ⟨Hasher.best_sha256_implementation m⟩

/-- A semantics for the bound kernels: what each backend does to memory
given an output pointer, an input pointer and a block count.  The three
external batch kernels are opaque, so theorems about the dispatcher
quantify over this interpretation. -/
abbrev BatchSem := Backend → Nat → Nat → Nat → Mem → Mem

/-- One pair-hashing request: output pointer, input pointer, block count. -/
structure HashCall where
  output : Nat
  input : Nat
  blocks : Nat

/-- The dispatcher's one operation after construction: forward the
request to the bound kernel.  It returns the (unchanged) dispatcher
and the updated memory. -/
def Hasher.hash_pairs (sem : BatchSem) (h : Hasher) (c : HashCall)
    (mem : Mem) : Hasher × Mem :=
  (h, sem h.hash_64b_blocks c.output c.input c.blocks mem)

/-- Run a sequence of pair-hashing requests against a dispatcher,
threading the memory through. -/
def Hasher.runCalls (sem : BatchSem) (h : Hasher) (mem : Mem) :
    List HashCall → Hasher × Mem
  | [] => (h, mem)
  | c :: rest =>
      let step := Hasher.hash_pairs sem h c mem
      Hasher.runCalls sem step.1 step.2 rest

theorem writeDigest_lo (mem : Mem) (p : Nat) (v : Fin 32 → UInt8) (a : Nat)
    (h : ¬(p ≤ a ∧ a < p + 32)) : writeDigest mem p v a = mem a := dif_neg h

theorem writeDigest_at (mem : Mem) (p : Nat) (v : Fin 32 → UInt8) (j : Fin 32) :
    writeDigest mem p v (p + j.val) = v j := by
  have hj := j.isLt
  unfold writeDigest
  rw [dif_pos ⟨Nat.le_add_right p j.val, by omega⟩]
  congr 1
  exact Fin.ext (show p + j.val - p = j.val by omega)

theorem sha256_sse_frame_lo (k : PairKernel) :
    ∀ (blocks o p : Nat) (inM out : Mem) (a : Nat), a < o →
      Hasher.sha256_sse k o p blocks inM out a = out a := by
  intro blocks
  induction blocks with
  | zero => intro o p inM out a ha; rfl
  | succ b ih =>
      intro o p inM out a ha
      simp only [Hasher.sha256_sse]
      rw [ih (o + BYTES_PER_CHUNK) (p + 2 * BYTES_PER_CHUNK) inM _ a
        (Nat.lt_of_lt_of_le ha (Nat.le_add_right o BYTES_PER_CHUNK))]
      exact writeDigest_lo out o _ a (by omega)

theorem sha256_sse_at (k : PairKernel) :
    ∀ (blocks i : Nat), i < blocks →
      ∀ (o p : Nat) (inM out : Mem) (j : Fin 32),
        Hasher.sha256_sse k o p blocks inM out (o + 32 * i + j.val)
          = k (readBlock inM (p + 64 * i)) j := by
  intro blocks
  induction blocks with
  | zero => intro i hi; exact absurd hi (Nat.not_lt_zero i)
  | succ b ih =>
      intro i hi o p inM out j
      have hj := j.isLt
      simp only [Hasher.sha256_sse, BYTES_PER_CHUNK]
      cases i with
      | zero =>
          have e1 : o + 32 * 0 + j.val = o + j.val := by omega
          rw [e1]
          rw [sha256_sse_frame_lo k b (o + 32) (p + 2 * 32) inM
            (writeDigest out o (k (readBlock inM p))) (o + j.val) (by omega)]
          have e2 : p + 64 * 0 = p := by omega
          rw [e2]
          exact writeDigest_at out o _ j
      | succ n =>
          have e1 : o + 32 * (n + 1) + j.val = o + 32 + 32 * n + j.val := by omega
          rw [e1]
          rw [ih n (by omega) (o + 32) (p + 2 * 32) inM
            (writeDigest out o (k (readBlock inM p))) j]
          have e2 : p + 2 * 32 + 64 * n = p + 64 * (n + 1) := by omega
          rw [e2]

example : select IMPL.SHA = .sha256_shani := by decide
example : select (IMPL.AVX2.or IMPL.AVX) = .sha256_8_avx2 := by decide
example : select IMPL.SSE = .sha256_sse := by decide
example : selectPolicySpec (IMPL.AVX.or IMPL.SSE) = .sha256_4_avx := by decide
example : Hasher.implemented ⟨7, 2 ^ 29 + 2 ^ 5, 2 ^ 28 + 1, 0, 0⟩
    = ⟨true, true, true, true⟩ := by decide
example : Hasher.implemented ⟨0, 0, 0, 2 ^ 29, 0⟩ = IMPL.SHA := by decide

/-- Sample single-block kernel for concrete checks: the digest is the
first 32 bytes of the block. -/
def sampleKernel : PairKernel :=
  fun blk j => blk ⟨j.val, Nat.lt_of_lt_of_le j.isLt (by omega)⟩

/-- Sample input memory for concrete checks. -/
def sampleIn : Mem := fun a => UInt8.ofNat a

/-- All-zero memory for concrete checks. -/
def zeroMem : Mem := fun _ => 0

/-- Claim C1: `best_sha256_implementation` evaluates candidates in fixed
descending priority order — SHA first, then AVX2, then AVX — and returns
the first backend whose required flag is present (it agrees with the
first-match walk over the priority-ordered catalog), so with several
flags present it returns the highest-priority match, never a lower one. -/
theorem select_priority_order :
    ∀ caps : IMPL, select caps = selectPolicySpec caps ∧
      ∀ b : Backend, IMPL.test caps (required b) = true →
        rank b ≤ rank (select caps) := by
  decide

/-- Claim C1 witness: with both SHA and AVX2 present, the SHA backend is
the highest-priority match and is what `select` returns. -/
theorem select_priority_order_witness :
    rank Backend.sha256_shani ≤ rank (select (IMPL.SHA.or IMPL.AVX2)) :=
  (select_priority_order (IMPL.SHA.or IMPL.AVX2)).2 Backend.sha256_shani (by decide)

/-- Claim C2: `select` is total — it returns exactly one backend for every
capability set, and the returned backend's required flag is present in the
set, or the backend is the designated fallback `sha256_sse`. -/
theorem select_total_and_sound :
    ∀ caps : IMPL,
      IMPL.test caps (required (select caps)) = true ∨
        select caps = Backend.sha256_sse := by
  decide

/-- Claim C3 (evaluation at the failing input): on a machine where the
CPUID query mechanism itself is unsupported (max leaf 0), both helper
calls write nothing and their ignored return values signal failure, so
`implemented` computes its flags from the indeterminate locals; when the
indeterminate `b` happens to hold bit 29, the result is the SHA set, not
`NONE` as the spec requires. -/
theorem implemented_unsupported_query_not_NONE :
    Hasher.implemented ⟨0, 0, 0, 2 ^ 29, 0⟩ = IMPL.SHA ∧
      Hasher.implemented ⟨0, 0, 0, 2 ^ 29, 0⟩ ≠ IMPL.NONE := by
  decide

/-- Claim C4: the fallback backend `sha256_sse` has no required capability
flag, its requirement is satisfied by every capability set (so it is
selectable on every supported target regardless of which flags are
absent), and it is what `select` returns whenever none of SHA, AVX2, AVX
match. -/
theorem fallback_requires_no_extension :
    required Backend.sha256_sse = IMPL.NONE ∧
      (∀ caps : IMPL, satisfies caps (required Backend.sha256_sse) = true) ∧
      (∀ caps : IMPL, IMPL.test caps IMPL.SHA = false →
        IMPL.test caps IMPL.AVX2 = false → IMPL.test caps IMPL.AVX = false →
        select caps = Backend.sha256_sse) := by
  decide

/-- Claim C4 witness: on a capability set with only SSE present (none of
the cataloged flags), `select` returns the fallback. -/
theorem fallback_requires_no_extension_witness :
    select IMPL.SSE = Backend.sha256_sse :=
  fallback_requires_no_extension.2.2 IMPL.SSE (by decide) (by decide) (by decide)

/-- Claim C5: batch independence of `sha256_sse` — for every block count
`N` and every index `i < N`, the 32 bytes the batched call writes at
output offset `32 * i` equal the bytes a single-block call on the input
at offset `64 * i` writes (at any output position, over any initial
output memory): each block's result depends only on its own 64 input
bytes. -/
theorem sha256_sse_batch_independence (k : PairKernel) (inM out out2 : Mem)
    (o p q N i : Nat) (j : Fin 32) (h : i < N) :
    Hasher.sha256_sse k o p N inM out (o + 32 * i + j.val)
      = Hasher.sha256_sse k q (p + 64 * i) 1 inM out2 (q + j.val) := by
  have e0 : q + j.val = q + 32 * 0 + j.val := by omega
  rw [e0, sha256_sse_at k N i h o p inM out j,
    sha256_sse_at k 1 0 (by omega) q (p + 64 * i) inM out2 j]
  have e2 : p + 64 * i + 64 * 0 = p + 64 * i := by omega
  rw [e2]

/-- Claim C5 witness: concrete two-block batch versus the single-block
call on the second block. -/
theorem sha256_sse_batch_independence_witness :
    Hasher.sha256_sse sampleKernel 0 0 2 sampleIn zeroMem
        (0 + 32 * 1 + (⟨0, by omega⟩ : Fin 32).val)
      = Hasher.sha256_sse sampleKernel 100 (0 + 64 * 1) 1 sampleIn zeroMem
        (100 + (⟨0, by omega⟩ : Fin 32).val) :=
  sha256_sse_batch_independence sampleKernel sampleIn zeroMem zeroMem
    0 0 100 2 1 ⟨0, by omega⟩ (by omega)

/-- Claim C6: calling `sha256_sse` with `blocks = 0` is a valid no-op: it
returns (totality of the definition) and the output memory is unchanged
at every byte. -/
theorem sha256_sse_zero_blocks (k : PairKernel) (o p : Nat) (inM out : Mem) :
    Hasher.sha256_sse k o p 0 inM out = out := rfl

/-- Claim C7: once a `Hasher` is constructed, its bound kernel is fixed:
after any sequence of pair-hashing calls (under any interpretation of the
kernels), the dispatcher still forwards to the kernel bound at
construction; no operation rebinds or unbinds it. -/
theorem hasher_bound_kernel_fixed (sem : BatchSem) (impl : IMPL) (m : Machine)
    (mem : Mem) (calls : List HashCall) :
    (Hasher.runCalls sem (Hasher.construct impl m) mem calls).1.hash_64b_blocks
      = (Hasher.construct impl m).hash_64b_blocks := by
  generalize Hasher.construct impl m = h
  induction calls generalizing mem with
  | nil => rfl
  | cons c rest ih =>
      simp only [Hasher.runCalls, Hasher.hash_pairs]
      exact ih _

/-- Claim C8: the capability bitmask under bitwise or is a commutative
monoid with `NONE` as identity (in particular
`implemented m | NONE = implemented m` for every machine), and flag tests
are independent: a set can hold SHA without AVX2 and SHA with AVX2. -/
theorem capability_set_monoid :
    (∀ x : IMPL, x.or IMPL.NONE = x ∧ IMPL.NONE.or x = x) ∧
      (∀ x y : IMPL, x.or y = y.or x) ∧
      (∀ x y z : IMPL, (x.or y).or z = x.or (y.or z)) ∧
      (∀ m : Machine, (Hasher.implemented m).or IMPL.NONE = Hasher.implemented m) ∧
      (IMPL.test IMPL.SHA IMPL.SHA = true ∧ IMPL.test IMPL.SHA IMPL.AVX2 = false) ∧
      (IMPL.test (IMPL.SHA.or IMPL.AVX2) IMPL.SHA = true ∧
        IMPL.test (IMPL.SHA.or IMPL.AVX2) IMPL.AVX2 = true) := by
  refine ⟨by decide, by decide, by decide, ?_, by decide, by decide⟩
  intro m
  exact (show ∀ x : IMPL, x.or IMPL.NONE = x by decide) (Hasher.implemented m)

/-- Claim C9: the SSE flag never influences automatic selection — any two
capability sets that agree on SHA, AVX2 and AVX (so possibly differing
only in SSE) select the same backend. -/
theorem select_independent_of_sse :
    ∀ c₁ c₂ : IMPL, c₁.sha = c₂.sha → c₁.avx2 = c₂.avx2 → c₁.avx = c₂.avx →
      select c₁ = select c₂ := by
  decide

/-- Claim C9 witness: the SSE-only set and the empty set select the same
backend. -/
theorem select_independent_of_sse_witness :
    select IMPL.SSE = select IMPL.NONE :=
  select_independent_of_sse IMPL.SSE IMPL.NONE (by decide) (by decide) (by decide)

/-- Claim C10: constructing a `Hasher` with any `IMPL` value that is not
exactly one of the four single flags — including `NONE` and combined
masks — falls through to the `default` branch and binds the result of
hardware-probed auto-selection. -/
theorem construct_other_values_auto_select :
    ∀ (impl : IMPL) (m : Machine),
      impl ≠ IMPL.SHA → impl ≠ IMPL.AVX2 → impl ≠ IMPL.AVX → impl ≠ IMPL.SSE →
      Hasher.construct impl m = ⟨Hasher.best_sha256_implementation m⟩ := by
  intro impl m h1 h2 h3 h4
  simp only [Hasher.construct, if_neg h1, if_neg h2, if_neg h3, if_neg h4]

/-- Claim C10 witness: the combined mask SHA|AVX2 matches no `case` label
and falls through to auto-selection. -/
theorem construct_other_values_auto_select_witness :
    Hasher.construct (IMPL.SHA.or IMPL.AVX2) ⟨7, 2 ^ 29, 0, 0, 0⟩
      = ⟨Hasher.best_sha256_implementation ⟨7, 2 ^ 29, 0, 0, 0⟩⟩ :=
  construct_other_values_auto_select (IMPL.SHA.or IMPL.AVX2) ⟨7, 2 ^ 29, 0, 0, 0⟩
    (by decide) (by decide) (by decide) (by decide)

end prysm
